import Mathlib

/-!
Verification development for the address-batch-geocoder repository.

The Python sources are shallowly embedded as executable Lean definitions:

* `src/utils/parse_address.py` — jurisdiction classification
  (`flag_non_philly_address`, `is_non_philly_from_full_address`);
* `src/utils/ais_lookup.py` — the primary (AIS) geocode resolver
  (`tiebreak`, `get_intersection_coords`, `make_coordinate_lookups`,
  `tiebreak_coordinate_lookups`, `ais_lookup`) together with a model of
  the `retrying` decorator that wraps it;
* `src/utils/tomtom_lookup.py` — the secondary (TomTom) resolver;
* `src/utils/rate_limiter.py` — the sliding-window rate limiter,
  modelled as a trace of admissions serialized by the lock;
* `src/geocoder.py` — the split/enrich/merge stream plumbing of
  `process_csv`, modelled on lists of rows.

Python-specific conventions used throughout the embedding:

* a Python value that may be `None` or a `str` is an `Option String`;
* Python truthiness of such a value (`if x:`) is `¬ pyFalsy x`, where
  `None` and the empty string are falsy;
* `dict.get(key, default)` on a JSON object is `Option.getD`;
* a raised exception is `Except.error` carrying the message text.
-/

/-- Python truthiness of an optional string: `None` and `""` are falsy. -/
def pyFalsy (s : Option String) : Bool :=
  match s with
  | none => true
  | some v => v.isEmpty

/-- Python `a if a else b` for an optional string `a` and string `b`. -/
def pyOrElse (a : Option String) (b : String) : String :=
  match a with
  | none => b
  | some v => if v.isEmpty then b else v

/-- Python `a if a else b` where both sides are strings. -/
def pyOrElseStr (a b : String) : String :=
  if a.isEmpty then b else a

/-- Python `candidate_zip == zip` where the left side is a `str` (the
result of `.get("zip_code", "")`) and the right side is `None` or a
`str`: comparison with `None` is always false. -/
def pyEqStrOpt (s : String) (z : Option String) : Bool :=
  match z with
  | none => false
  | some t => s == t

/-! ## `src/utils/parse_address.py` — jurisdiction classification -/

/-- `parse_address.py` lines 68-71: `if city: city = city.lower().strip()`.
A `None` stays `None`; an empty string is falsy and is left as is;
otherwise the value is lower-cased and stripped. -/
def pyNormalizeField (s : Option String) : Option String :=
  match s with
  | none => none
  | some v => if v.isEmpty then some v else some (v.toLower.trim)

/-- `parse_address.py` lines 74-75: `if zip_code: zip_code = zip_code.strip()`. -/
def pyNormalizeZip (s : Option String) : Option String :=
  match s with
  | none => none
  | some v => if v.isEmpty then some v else some v.trim

/-- `parse_address.py` line 77: the recognized Philadelphia city names. -/
def philly_names : List String := ["philadelphia", "phila", "philly"]

/-- `parse_address.py` line 78: the recognized Pennsylvania state names. -/
def pa_names : List String := ["pennsylvania", "pa", "penn"]

/-- Python `x in names` where `x` may be `None`: `None` is never a member. -/
def optMemb (s : Option String) (names : List String) : Bool :=
  match s with
  | none => false
  | some v => names.contains v

/-- Python `x is not None and x not in names`. -/
def optPresentNotMemb (s : Option String) (names : List String) : Bool :=
  match s with
  | none => false
  | some v => !(names.contains v)

/-- `parse_address.py` lines 51-101, `flag_non_philly_address`: given the
optional `city`, `state` and `zip` entries of the address data dict and
the list of valid Philadelphia zip codes, decide whether the address is
non-Philadelphia (`true` means non-Philly). -/
def flag_non_philly_address (city state zip_code : Option String)
    (philly_zips : List String) : Bool :=
  let c := pyNormalizeField city
  let s := pyNormalizeField state
  let z := pyNormalizeZip zip_code
  -- Case 1: Philly city and PA state: in Philly regardless of zip
  if optMemb c philly_names && optMemb s pa_names then
    false
  -- Case 2: a present non-Philly city or a present non-PA state
  else if optPresentNotMemb c philly_names then
    true
  else if optPresentNotMemb s pa_names then
    true
  -- Case 3: fall back to the zip code, assume Philly when it is None
  else
    match z with
    | none => false
    | some zv => !(philly_zips.contains (zv.take 5))

/-- The city/state/zip triple extracted from a free-text address by the
external `usaddress` tagging capability (`tag_full_address`,
`parse_address.py` lines 31-48); the tagger itself is an opaque
collaborator and is passed as a function. -/
structure TaggedAddress where
  city : Option String
  state : Option String
  zip : Option String

/-- `parse_address.py` lines 104-121, `is_non_philly_from_full_address`:
a `None` address is flagged `False` (treated as a Philadelphia address);
otherwise the address is tagged and passed to `flag_non_philly_address`. -/
def is_non_philly_from_full_address (tag : String → TaggedAddress)
    (address : Option String) (philly_zips : List String) : Bool :=
  match address with
  | none => false
  | some a =>
    let t := tag a
    flag_non_philly_address t.city t.state t.zip philly_zips

/-- Modelled from the claim wording (spec section 4.2): the jurisdiction
rule as the specification states it, returning `true` for local. After
normalization: local when city and state both match; non-local when a
present city or a present state does not match; otherwise local exactly
when the zip code is absent or its first five characters are in the
known set. Written independently of `flag_non_philly_address` so the two
can be compared. -/
def jurisdiction_rule_spec (city state zip_code : Option String)
    (philly_zips : List String) : Bool :=
  let c := pyNormalizeField city
  let s := pyNormalizeField state
  let z := pyNormalizeZip zip_code
  if optMemb c philly_names && optMemb s pa_names then
    true
  else if optPresentNotMemb c philly_names || optPresentNotMemb s pa_names then
    false
  else
    match z with
    | none => true
    | some zv => philly_zips.contains (zv.take 5)

/-- Claim C1: the jurisdiction classifier, after case-normalizing and
trimming, classifies as local exactly as the specification's rule
states (city-and-state match wins, a present mismatching city or state
forces non-local, otherwise the 5-digit zip decides with absent zip
defaulting to local), and a null free-text address always classifies
as local. -/
theorem jurisdiction_classifier_correct :
    (∀ city state zip_code philly_zips,
      (!flag_non_philly_address city state zip_code philly_zips) =
        jurisdiction_rule_spec city state zip_code philly_zips)
    ∧ (∀ tag philly_zips,
      is_non_philly_from_full_address tag none philly_zips = false) := by
  constructor
  · intro city state zip_code philly_zips
    unfold flag_non_philly_address jurisdiction_rule_spec
    cases h1 : optMemb (pyNormalizeField city) philly_names &&
        optMemb (pyNormalizeField state) pa_names <;>
      cases h2 : optPresentNotMemb (pyNormalizeField city) philly_names <;>
        cases h3 : optPresentNotMemb (pyNormalizeField state) pa_names <;>
          simp [h1, h2, h3] <;> cases pyNormalizeZip zip_code <;> simp
  · intro tag philly_zips
    rfl

/-! ## `src/utils/ais_lookup.py` — the primary (AIS) geocode resolver

A GeoJSON feature returned by AIS is modelled by its parts that the
source reads: `properties.street_address`, `properties.zip_code`, the
remaining enrichment properties, and `geometry.coordinates`. A field is
`none` when the corresponding key is absent (or, for `geometry`, when
`feature.get("geometry")` is falsy); `geometry = some (lon, lat)` means
a geometry object carrying a two-element `coordinates` pair, whose
members are kept as their rendered string forms since the source only
ever passes them through `str(...)`. -/

structure Feature where
  street_address : Option String
  zip_code : Option String
  props : List (String × String)
  geometry : Option (String × String)
deriving DecidableEq

/-- The body of an AIS search response that the source reads: the
`search_type` key, the `features` list, and the top-level `normalized`
key used by the tiebreak-failure branch. -/
structure AISResponse where
  search_type : Option String
  features : List Feature
  normalized : Option String

/-- A reverse-geocode response: its HTTP status code and its `features`
list (read only on status 200). -/
structure RevResponse where
  status : Nat
  features : List Feature

/-- The `out_data` dict built by `ais_lookup`: the output address, the
validity flags, the optional coordinates, and one entry per requested
enrichment field. -/
structure OutData where
  output_address : String
  is_addr : Bool
  is_philly_addr : Bool
  geocode_lat : Option String
  geocode_lon : Option String
  is_multiple_match : Bool
  match_type : Option String
  enrich : List (String × Option String)
deriving DecidableEq

/-- `ais_lookup.py` lines 12-42, `tiebreak`: keep the features whose
`properties.get("zip_code", "")` equals the input zip; return the single
survivor, `None` otherwise. -/
def tiebreak (features : List Feature) (zip : Option String) : Option Feature :=
  match features.filter (fun c => pyEqStrOpt (c.zip_code.getD "") zip) with
  | [c] => some c
  | _ => none

/-- `ais_lookup.py` lines 45-61, `get_intersection_coords`: the
coordinate pair of every feature whose `geometry` is present (truthy). -/
def get_intersection_coords (features : List Feature) : List (String × String) :=
  features.filterMap Feature.geometry

/-- `ais_lookup.py` lines 64-100, `make_coordinate_lookups`: one reverse
lookup per coordinate pair, in order; a 5xx, 429, 401 or unexpected
status raises; on 200 the response body is collected. The network is
passed as the function `reverse`. -/
def make_coordinate_lookups (reverse : String × String → RevResponse) :
    List (String × String) → Except String (List RevResponse)
  | [] => Except.ok []
  | coord :: rest =>
    let r := reverse coord
    if 500 ≤ r.status then
      Except.error "5xx response. There may be a problem with theAIS API."
    else if r.status == 429 then
      Except.error "429 response. Too many calls to the AIS API."
    else if r.status == 401 then
      Except.error "401 response. Invalid API key."
    else if r.status == 200 then
      match make_coordinate_lookups reverse rest with
      | Except.ok out_data => Except.ok (r :: out_data)
      | Except.error e => Except.error e
    else
      Except.error ("Error occurred with the following status code: " ++ toString r.status)

/-- `ais_lookup.py` lines 103-119, `tiebreak_coordinate_lookups`: collect,
across all reverse-lookup responses in order, the features whose zip code
equals the input zip OR that survive because the input zip is falsy
(`or not zip`); return the first collected feature, `None` when none. -/
def tiebreak_coordinate_lookups (responses : List RevResponse)
    (zip : Option String) : Option Feature :=
  (responses.flatMap fun r =>
    r.features.filter fun c => pyEqStrOpt (c.zip_code.getD "") zip || pyFalsy zip).head?

/-- `ais_lookup.py` lines 189-203: the out_data built when the tiebreak
fails (no tiebroken address): the response's `normalized` value (falling
back to the query address), `is_addr=False`, `is_philly_addr=True`, null
coordinates, `is_multiple_match=True`, `match_type="ais"`, and `None`
for every enrichment field. -/
def tiebreak_failure (resp : AISResponse) (address : String)
    (enrichment_fields : List String) : OutData :=
  { output_address := pyOrElse resp.normalized address
    is_addr := false
    is_philly_addr := true
    geocode_lat := none
    geocode_lon := none
    is_multiple_match := true
    match_type := some "ais"
    enrich := enrichment_fields.map fun f => (f, none) }

/-- `ais_lookup.py` lines 226-235: one enrichment entry of the accepted
feature: `properties.get(field, "")`, mapped to `None` when falsy and
kept (as its string form) otherwise. -/
def enrich_value (f : Feature) (field : String) : Option String :=
  match f.props.lookup field with
  | none => none
  | some v => if v.isEmpty then none else some v

/-- `ais_lookup.py` lines 205-237: the out_data built from an accepted
(tiebroken) feature. When the feature has no geometry/coordinates the
source's `except KeyError: lon, lat = ""` itself raises a `ValueError`
(an empty string cannot be unpacked into two names), so that case is an
error. -/
def accept_feature (f : Feature) (address : String)
    (enrichment_fields : List String) : Except String OutData :=
  match f.geometry with
  | none => Except.error "ValueError: not enough values to unpack"
  | some (lon, lat) =>
    Except.ok
      { output_address := pyOrElseStr (f.street_address.getD "") address
        is_addr := true
        is_philly_addr := true
        geocode_lat := some lat
        geocode_lon := some lon
        is_multiple_match := false
        match_type := some "ais"
        enrich := enrichment_fields.map fun fl => (fl, enrich_value f fl) }

/-- `ais_lookup.py` lines 239-252: the out_data built when the search
found no match (any status other than 200 after the 5xx/429 checks):
the original address (falling back to the query address), the previous
validity flags preserved, null coordinates, no multiple match, null
match type, `None` for every enrichment field. -/
def no_match_result (address : String) (original_address : Option String)
    (existing_is_addr existing_is_philly_addr : Bool)
    (enrichment_fields : List String) : OutData :=
  { output_address := pyOrElse original_address address
    is_addr := existing_is_addr
    is_philly_addr := existing_is_philly_addr
    geocode_lat := none
    geocode_lon := none
    is_multiple_match := false
    match_type := none
    enrich := enrichment_fields.map fun f => (f, none) }

/-- `ais_lookup.py` lines 130-252, `ais_lookup` (the body wrapped by the
`@retry` decorator): raise on 5xx and 429; on 200 dispatch on the
response shape — multi-candidate address responses go through
`tiebreak`, intersection responses go through the reverse-lookup chain,
single-candidate responses are taken directly, anything else leaves the
tiebroken address `None` — then build the accepted, tiebreak-failure or
no-match out_data. The search response is given by `status` and `resp`;
reverse lookups read the environment `reverse`. -/
def ais_lookup (status : Nat) (resp : AISResponse)
    (reverse : String × String → RevResponse)
    (address : String) (zip : Option String)
    (enrichment_fields : List String)
    (existing_is_addr existing_is_philly_addr : Bool)
    (original_address : Option String) : Except String OutData :=
  if 500 ≤ status then
    Except.error "5xx response. There may be a problem with theAIS API."
  else if status == 429 then
    Except.error "429 response. Too many calls to the AIS API."
  else if status == 200 then
    let tiebroken : Except String (Option Feature) :=
      if 1 < resp.features.length && resp.search_type == some "address" then
        Except.ok (tiebreak resp.features zip)
      else if resp.search_type == some "intersection" then
        match make_coordinate_lookups reverse (get_intersection_coords resp.features) with
        | Except.ok results => Except.ok (tiebreak_coordinate_lookups results zip)
        | Except.error e => Except.error e
      else if resp.features.length == 1 then
        Except.ok resp.features.head?
      else
        Except.ok none
    match tiebroken with
    | Except.error e => Except.error e
    | Except.ok none =>
      -- a feature dict always carries a `properties` key (the tiebreak
      -- reads it), so an accepted feature is a non-empty, truthy dict and
      -- `if not tiebroken_address` distinguishes exactly the `None` case
      Except.ok (tiebreak_failure resp address enrichment_fields)
    | Except.ok (some f) => accept_feature f address enrichment_fields
  else
    Except.ok (no_match_result address original_address
      existing_is_addr existing_is_philly_addr enrichment_fields)

/-- Model of the `retrying` library's `@retry` decorator as configured on
`ais_lookup` (`stop_max_attempt_number = 3`) and `tomtom_lookup`
(`stop_max_attempt_number = 5`): no `retry_on_exception` predicate is
given, so EVERY raised exception is retried until the attempt cap is
reached, and the exception of the final attempt propagates. `f n` is
the outcome of the n-th attempt (attempts are numbered from 1); the
backoff waits between attempts only affect timing and are not modelled. -/
def retryLoop {α : Type} (f : Nat → Except String α) :
    Nat → Nat → Except String α
  | attempt, 0 => f attempt
  | attempt, fuel + 1 =>
    match f attempt with
    | Except.ok a => Except.ok a
    | Except.error _ => retryLoop f (attempt + 1) fuel

/-- Run up to `stopMax` attempts of `f` (see `retryLoop`). -/
def retryCall {α : Type} (stopMax : Nat) (f : Nat → Except String α) :
    Except String α :=
  retryLoop f 1 (stopMax - 1)

/-! ### Concrete response fixtures used by witnesses and counterexamples -/

/-- A feature as in the repository's own test data: 1234 N MARKET ST in
zip 19107 with a geometry. -/
def feat19107 : Feature :=
  { street_address := some "1234 N MARKET ST"
    zip_code := some "19107"
    props := []
    geometry := some ("-75.16", "39.95") }

/-- A second feature with a different zip code. -/
def feat11111 : Feature :=
  { street_address := some "1234 S MARKET ST"
    zip_code := some "11111"
    props := []
    geometry := some ("-75.16", "39.95") }

/-- A third feature whose zip also fails to match the query zip. -/
def feat22222 : Feature :=
  { street_address := some "1234 N MARKET ST"
    zip_code := some "22222"
    props := []
    geometry := some ("-75.16", "39.95") }

/-- A two-candidate address-type AIS response where exactly one
candidate carries zip 19107. -/
def respUnique : AISResponse :=
  { search_type := some "address"
    features := [feat19107, feat11111]
    normalized := none }

/-- A two-candidate address-type AIS response where no candidate
matches zip 19107. -/
def respNoMatch : AISResponse :=
  { search_type := some "address"
    features := [feat22222, feat11111]
    normalized := none }

/-- A reverse-lookup environment that always answers 200 with no
features; used where the reverse channel is never consulted. -/
def dummyReverse : String × String → RevResponse :=
  fun _ => { status := 200, features := [] }

/-- Claim C2: on a multi-candidate address-type response in which exactly
one candidate's postal code equals the input postal code, `ais_lookup`
accepts exactly that candidate: the output address, coordinates and
enrichment fields all come from it, with `is_addr` and `is_philly_addr`
true and `is_multiple_match` false. -/
theorem ais_tiebreak_accepts_unique_match
    (resp : AISResponse) (reverse : String × String → RevResponse)
    (address : String) (zip : Option String) (fields : List String)
    (ea ep : Bool) (oa : Option String) (f : Feature) (lon lat : String)
    (hlen : 1 < resp.features.length)
    (htype : resp.search_type = some "address")
    (huniq : resp.features.filter
      (fun c => pyEqStrOpt (c.zip_code.getD "") zip) = [f])
    (hgeom : f.geometry = some (lon, lat)) :
    ais_lookup 200 resp reverse address zip fields ea ep oa =
      Except.ok
        { output_address := pyOrElseStr (f.street_address.getD "") address
          is_addr := true
          is_philly_addr := true
          geocode_lat := some lat
          geocode_lon := some lon
          is_multiple_match := false
          match_type := some "ais"
          enrich := fields.map fun fl => (fl, enrich_value f fl) } := by
  unfold ais_lookup
  simp only [htype, hlen, tiebreak, huniq]
  norm_num
  simp [accept_feature, hgeom]

/-- Witness for C2 at the repository test fixture: two candidates with
zips 19107 and 11111, query zip 19107; the 19107 candidate is accepted. -/
theorem ais_tiebreak_accepts_unique_match_witness :
    ais_lookup 200 respUnique dummyReverse "1234 mkt st" (some "19107")
        [] true true (some "1234 mkt st") =
      Except.ok
        { output_address := pyOrElseStr (feat19107.street_address.getD "") "1234 mkt st"
          is_addr := true
          is_philly_addr := true
          geocode_lat := some "39.95"
          geocode_lon := some "-75.16"
          is_multiple_match := false
          match_type := some "ais"
          enrich := [] } :=
  ais_tiebreak_accepts_unique_match respUnique dummyReverse "1234 mkt st"
    (some "19107") [] true true (some "1234 mkt st") feat19107 "-75.16" "39.95"
    (by decide) rfl (by decide) rfl

/-- Counterexample for claim C3: the claim says the previous validity
flags are preserved unchanged on a failed tiebreak, but on a
two-candidate address-type response where neither candidate matches the
query zip, `ais_lookup` called with `existing_is_addr=True` returns a
result whose `is_addr` is `False` (lines 189-203 overwrite the flags
with `False`/`True` instead of preserving them). -/
theorem ais_multi_match_flags_counterexample :
    Except.map OutData.is_addr
      (ais_lookup 200 respNoMatch dummyReverse "1234 mkt st" (some "19107")
        [] true true (some "1234 mkt st")) = Except.ok false := by
  rfl

/-- Claim C3 as amended: on a multi-candidate address-type response in
which zero or more than one candidates match the input postal code, the
result has `is_multiple_match=true` and null coordinates, but the
previous validity flags are NOT preserved: `is_addr` is set to `false`
and `is_philly_addr` to `true` regardless of `existing_is_addr` and
`existing_is_philly_addr`; the output address falls back to the
response's `normalized` field or the query address, `match_type` is
`"ais"` and every enrichment field is null. -/
theorem ais_multi_match_overwrites_flags
    (resp : AISResponse) (reverse : String × String → RevResponse)
    (address : String) (zip : Option String) (fields : List String)
    (ea ep : Bool) (oa : Option String)
    (hlen : 1 < resp.features.length)
    (htype : resp.search_type = some "address")
    (hfail : (resp.features.filter
      (fun c => pyEqStrOpt (c.zip_code.getD "") zip)).length ≠ 1) :
    ais_lookup 200 resp reverse address zip fields ea ep oa =
      Except.ok
        { output_address := pyOrElse resp.normalized address
          is_addr := false
          is_philly_addr := true
          geocode_lat := none
          geocode_lon := none
          is_multiple_match := true
          match_type := some "ais"
          enrich := fields.map fun f => (f, none) } := by
  have htb : tiebreak resp.features zip = none := by
    unfold tiebreak
    rcases h : resp.features.filter
        (fun c => pyEqStrOpt (c.zip_code.getD "") zip) with _ | ⟨a, _ | ⟨b, t⟩⟩
    · rw [h]
    · rw [h] at hfail; simp at hfail
    · rw [h]
  unfold ais_lookup
  simp only [htype, hlen, htb]
  norm_num
  rfl

/-- Witness for the amended C3 at a concrete two-candidate response with
no zip match and previous flags set to `true`. -/
theorem ais_multi_match_overwrites_flags_witness :
    ais_lookup 200 respNoMatch dummyReverse "1234 mkt st" (some "19107")
        [] true true (some "1234 mkt st") =
      Except.ok
        { output_address := pyOrElse respNoMatch.normalized "1234 mkt st"
          is_addr := false
          is_philly_addr := true
          geocode_lat := none
          geocode_lon := none
          is_multiple_match := true
          match_type := some "ais"
          enrich := [] } :=
  ais_multi_match_overwrites_flags respNoMatch dummyReverse "1234 mkt st"
    (some "19107") [] true true (some "1234 mkt st")
    (by decide) rfl (by decide)

/-- Claim C10: on a multi-candidate address-type response queried with a
null input postal code, no candidate survives the tiebreak (a candidate
survives only when its string zip-code property compares equal to the
input, and comparison with `None` is always false), so resolution ends
in the multiple-match failure state: `is_addr=false`,
`is_philly_addr=true`, `is_multiple_match=true`, null coordinates. -/
theorem ais_null_zip_always_multiple_match
    (resp : AISResponse) (reverse : String × String → RevResponse)
    (address : String) (fields : List String)
    (ea ep : Bool) (oa : Option String)
    (hlen : 1 < resp.features.length)
    (htype : resp.search_type = some "address") :
    tiebreak resp.features none = none ∧
    ais_lookup 200 resp reverse address none fields ea ep oa =
      Except.ok (tiebreak_failure resp address fields) ∧
    (tiebreak_failure resp address fields).is_addr = false ∧
    (tiebreak_failure resp address fields).is_philly_addr = true ∧
    (tiebreak_failure resp address fields).is_multiple_match = true ∧
    (tiebreak_failure resp address fields).geocode_lat = none ∧
    (tiebreak_failure resp address fields).geocode_lon = none := by
  have htb : tiebreak resp.features none = none := by
    unfold tiebreak
    simp [pyEqStrOpt]
  refine ⟨htb, ?_, rfl, rfl, rfl, rfl, rfl⟩
  unfold ais_lookup
  simp only [htype, hlen, htb]
  norm_num

/-- Witness for C10: the two-candidate fixture queried with a null zip
ends in the multiple-match failure state. -/
theorem ais_null_zip_always_multiple_match_witness :
    ais_lookup 200 respUnique dummyReverse "1234 mkt st" none
        [] true true (some "1234 mkt st") =
      Except.ok (tiebreak_failure respUnique "1234 mkt st" []) :=
  (ais_null_zip_always_multiple_match respUnique dummyReverse "1234 mkt st"
    [] true true (some "1234 mkt st") (by decide) rfl).2.1

/-- When every reverse lookup answers 200, `make_coordinate_lookups`
collects exactly one response per coordinate pair, in order. -/
theorem make_coordinate_lookups_all_ok
    (reverse : String × String → RevResponse)
    (coords : List (String × String))
    (hok : ∀ c ∈ coords, (reverse c).status = 200) :
    make_coordinate_lookups reverse coords = Except.ok (coords.map reverse) := by
  induction coords with
  | nil => rfl
  | cons c rest ih =>
    have hc : (reverse c).status = 200 := hok c (List.mem_cons_self c rest)
    have ihr := ih (fun x hx => hok x (List.mem_cons_of_mem c hx))
    unfold make_coordinate_lookups
    rw [ihr]
    simp [hc]

/-- The survivor list that `tiebreak_coordinate_lookups` scans for an
intersection response: all reverse-lookup features, in response order,
whose zip code matches the input or that survive because the input zip
is falsy. -/
def intersection_survivors (resp : AISResponse)
    (reverse : String × String → RevResponse) (zip : Option String) :
    List Feature :=
  ((get_intersection_coords resp.features).map reverse).flatMap fun r =>
    r.features.filter fun c => pyEqStrOpt (c.zip_code.getD "") zip || pyFalsy zip

/-- Claim C4 as amended: on an intersection-type response (with all
reverse lookups answering 200), the resolver fetches the coordinate
pair of every candidate geometry and issues one reverse-geocode lookup
per pair; it then applies the modified postal-code tiebreak to the
reverse-lookup results — a candidate survives when its zip code equals
the input OR when the input zip is null/empty — and accepts the FIRST
surviving candidate; the tiebreak-failure state (`is_multiple_match`
true, null coordinates) is entered only when zero candidates survive,
not when multiple survive. -/
theorem ais_intersection_accepts_first_survivor
    (resp : AISResponse) (reverse : String × String → RevResponse)
    (address : String) (zip : Option String) (fields : List String)
    (ea ep : Bool) (oa : Option String)
    (htype : resp.search_type = some "intersection")
    (hok : ∀ c ∈ get_intersection_coords resp.features,
      (reverse c).status = 200) :
    make_coordinate_lookups reverse (get_intersection_coords resp.features) =
      Except.ok ((get_intersection_coords resp.features).map reverse) ∧
    (intersection_survivors resp reverse zip = [] →
      ais_lookup 200 resp reverse address zip fields ea ep oa =
        Except.ok (tiebreak_failure resp address fields)) ∧
    (∀ f rest, intersection_survivors resp reverse zip = f :: rest →
      ais_lookup 200 resp reverse address zip fields ea ep oa =
        accept_feature f address fields) := by
  have hmk := make_coordinate_lookups_all_ok reverse
    (get_intersection_coords resp.features) hok
  refine ⟨hmk, ?_, ?_⟩
  · intro hempty
    unfold ais_lookup
    simp only [htype, hmk]
    norm_num
    unfold tiebreak_coordinate_lookups
    unfold intersection_survivors at hempty
    rw [hempty, if_neg (fun hcontra => absurd hcontra.2 (by decide))]
    rfl
  · intro f rest hcons
    unfold ais_lookup
    simp only [htype, hmk]
    norm_num
    unfold tiebreak_coordinate_lookups
    unfold intersection_survivors at hcons
    rw [hcons, if_neg (fun hcontra => absurd hcontra.2 (by decide))]
    rfl

/-- An intersection feature carrying only a geometry. -/
def intFeatA : Feature :=
  { street_address := none, zip_code := none, props := []
    geometry := some ("-75.16", "39.95") }

/-- A second intersection feature carrying only a geometry. -/
def intFeatB : Feature :=
  { street_address := none, zip_code := none, props := []
    geometry := some ("-75.17", "39.96") }

/-- An intersection-type AIS response with two candidate geometries. -/
def respIntersection : AISResponse :=
  { search_type := some "intersection"
    features := [intFeatA, intFeatB]
    normalized := none }

/-- A reverse-lookup environment answering every coordinate with one
feature in zip 19107 whose geometry echoes the queried coordinate. -/
def revMatch : String × String → RevResponse :=
  fun c =>
    { status := 200
      features := [{ street_address := none, zip_code := some "19107"
                     props := [], geometry := some c }] }

/-- Counterexample for claim C4: the claim says resolution fails with
`is_multiple_match=true` when MULTIPLE reverse-lookup candidates survive
the tiebreak, but on an intersection response whose two reverse lookups
both match zip 19107 the source accepts the first survivor, so the
result has `is_multiple_match = false` (and real coordinates). -/
theorem ais_intersection_multi_survivor_counterexample :
    Except.map OutData.is_multiple_match
      (ais_lookup 200 respIntersection revMatch "market and broad"
        (some "19107") [] true true none) = Except.ok false := by
  rfl

/-- Witness for the amended C4: with two surviving reverse-lookup
candidates, the first one is accepted. -/
theorem ais_intersection_accepts_first_survivor_witness :
    ais_lookup 200 respIntersection revMatch "market and broad"
        (some "19107") [] true true none =
      accept_feature
        { street_address := none, zip_code := some "19107"
          props := [], geometry := some ("-75.16", "39.95") }
        "market and broad" [] :=
  (ais_intersection_accepts_first_survivor respIntersection revMatch
    "market and broad" (some "19107") [] true true none rfl
    (by decide)).2.2
    { street_address := none, zip_code := some "19107"
      props := [], geometry := some ("-75.16", "39.95") }
    [{ street_address := none, zip_code := some "19107"
       props := [], geometry := some ("-75.17", "39.96") }]
    (by decide)

/-- Claim C6 as amended: transient failures (a 5xx status or an explicit
429 rate-limit status) raise exceptions, which the `@retry` wrapper —
configured with no exception predicate — retries up to its fixed
3-attempt cap before propagating; an authentication failure (401) does
NOT abort the batch immediately: on the primary search request it is
not raised at all and the call returns the no-match result with the
previous validity flags preserved, while a 401 during an intersection
reverse-geocode lookup raises an exception that the wrapper retries
like any other failure before propagating. -/
theorem ais_retry_and_auth_behavior :
    (∀ status resp reverse address zip fields ea ep oa, 500 ≤ status →
      ais_lookup status resp reverse address zip fields ea ep oa =
        Except.error "5xx response. There may be a problem with theAIS API.") ∧
    (∀ resp reverse address zip fields ea ep oa,
      ais_lookup 429 resp reverse address zip fields ea ep oa =
        Except.error "429 response. Too many calls to the AIS API.") ∧
    (∀ resp reverse address zip fields ea ep oa,
      ais_lookup 401 resp reverse address zip fields ea ep oa =
        Except.ok (no_match_result address oa ea ep fields)) ∧
    (∀ reverse coord rest, (reverse coord).status = 401 →
      make_coordinate_lookups reverse (coord :: rest) =
        Except.error "401 response. Invalid API key.") ∧
    (∀ f : Nat → Except String OutData, ∀ out : OutData, ∀ e : String,
      f 1 = Except.error e → f 2 = Except.ok out →
      retryCall 3 f = Except.ok out) ∧
    (∀ f : Nat → Except String OutData, ∀ e : String,
      (∀ i, f i = Except.error e) → retryCall 3 f = Except.error e) := by
  refine ⟨?_, ?_, ?_, ?_, ?_, ?_⟩
  · intro status resp reverse address zip fields ea ep oa h
    unfold ais_lookup
    rw [if_pos h]
  · intro resp reverse address zip fields ea ep oa
    rfl
  · intro resp reverse address zip fields ea ep oa
    rfl
  · intro reverse coord rest h
    unfold make_coordinate_lookups
    simp [h]
  · intro f out e h1 h2
    unfold retryCall retryLoop
    rw [h1]
    unfold retryLoop
    rw [h2]
  · intro f e h
    unfold retryCall retryLoop
    rw [h 1]
    unfold retryLoop
    rw [h 2]
    unfold retryLoop
    exact h 3

/-- Counterexample for claim C6: the claim says a 401 authentication
failure is never retried and aborts the batch immediately; but (1) a
401 on the primary search request does not raise at all — `ais_lookup`
returns the no-match result normally — and (2) the exception text a 401
reverse lookup raises IS retried: a call that fails with it on the
first attempt and succeeds on the second returns the success, so the
batch continues. -/
theorem ais_auth_failure_counterexample :
    ais_lookup 401 respUnique dummyReverse "1234 mkt st" none [] true false
        none = Except.ok (no_match_result "1234 mkt st" none true false []) ∧
    retryCall 3 (fun i => if i == 1
        then Except.error "401 response. Invalid API key."
        else Except.ok (no_match_result "1234 mkt st" none true false [])) =
      Except.ok (no_match_result "1234 mkt st" none true false []) :=
  ⟨rfl, rfl⟩

/-- Witness for the amended C6: a 500 status raises the 5xx exception,
and a call failing on every attempt propagates the failure after the
attempt cap. -/
theorem ais_retry_and_auth_behavior_witness :
    ais_lookup 500 respUnique dummyReverse "a" none [] false false none =
      Except.error "5xx response. There may be a problem with theAIS API." ∧
    retryCall 3 (fun _ =>
        (Except.error "429 response. Too many calls to the AIS API." :
          Except String OutData)) =
      Except.error "429 response. Too many calls to the AIS API." :=
  ⟨ais_retry_and_auth_behavior.1 500 respUnique dummyReverse "a" none []
      false false none (by decide),
    ais_retry_and_auth_behavior.2.2.2.2.2 _ _ (fun _ => rfl)⟩

/-! ## `src/utils/tomtom_lookup.py` — the secondary (TomTom) resolver -/

/-- A TomTom candidate as the source reads it: its `address` key and its
`location` x/y pair (`none` when the `location`/`x`/`y` keys are absent,
in which case the source's KeyError handler fires). Coordinate members
are kept as rendered strings. -/
structure TTCandidate where
  address : Option String
  location : Option (String × String)
deriving DecidableEq

/-- A TomTom find-address-candidates response: its HTTP status and its
`candidates` list (`response.json().get("candidates")` is truthy exactly
when the list is non-empty). -/
structure TTResponse where
  status : Nat
  candidates : List TTCandidate
deriving DecidableEq

/-- Python subscripting of a `bool` value (`address_flagged["is_non_philly"]`
on the `bool` returned by `flag_non_philly_address`) always raises a
`TypeError`; there is no value it can produce. -/
def pySubscriptBool (b : Bool) (key : String) : Except String Empty :=
  Except.error "TypeError: bool object is not subscriptable"

/-- `tomtom_lookup.py` lines 39-99, `_do_tomtom_lookup`: a falsy address
returns `None`; 5xx and 429 statuses raise; on a 200 response with at
least one candidate the source tags the top candidate's address, calls
`flag_non_philly_address` on the tags, and then subscripts the returned
`bool` with `"is_non_philly"` (line 72), which raises a `TypeError` —
the remainder of that branch (the passyunk re-parse, the coordinate
extraction controlled by `fetch_4326`/`fetch_2272`, and the out_data
construction) is unreachable; any other response returns `None`. -/
def _do_tomtom_lookup (resp : TTResponse) (tag : String → TaggedAddress)
    (philly_zips : List String) (address : Option String)
    (fetch_4326 fetch_2272 : Bool) : Except String (Option OutData) :=
  if pyFalsy address then
    Except.ok none
  else if 500 ≤ resp.status then
    Except.error "5xx response. There may be a problem with TomTom API server."
  else if resp.status == 429 then
    Except.error "429 response. Too many API calls to TomTom."
  else if resp.status == 200 then
    match resp.candidates with
    | [] => Except.ok none
    | c :: _ =>
      let matched_address := c.address.getD ""
      let address_tagged := tag matched_address
      let address_flagged := flag_non_philly_address address_tagged.city
        address_tagged.state address_tagged.zip philly_zips
      match pySubscriptBool address_flagged "is_non_philly" with
      | Except.error e => Except.error e
      | Except.ok impossible => impossible.elim
  else
    Except.ok none

/-- Claim C5 (code bug): the secondary resolver never reaches the
acceptance logic the claim (and the repository's own tests, e.g.
`test_tomtom_lookup_fetches_both_srids`) describe: on EVERY 200 response
with at least one candidate and a non-falsy query address,
`_do_tomtom_lookup` raises a `TypeError`, because
`flag_non_philly_address` (parse_address.py) returns a plain `bool`
which `tomtom_lookup.py` line 72 subscripts with `"is_non_philly"`. -/
theorem tomtom_match_always_raises_type_error
    (resp : TTResponse) (tag : String → TaggedAddress)
    (philly_zips : List String) (address : Option String)
    (fetch_4326 fetch_2272 : Bool)
    (haddr : pyFalsy address = false)
    (hstatus : resp.status = 200)
    (hcand : resp.candidates ≠ []) :
    _do_tomtom_lookup resp tag philly_zips address fetch_4326 fetch_2272 =
      Except.error "TypeError: bool object is not subscriptable" := by
  obtain ⟨c, cs, hcc⟩ := List.exists_cons_of_ne_nil hcand
  unfold _do_tomtom_lookup
  rw [haddr, hstatus, hcc]
  rfl

/-- The repository test fixture response: one TomTom candidate at
1234 Market St, Philadelphia. -/
def ttRespMatch : TTResponse :=
  { status := 200
    candidates := [{ address := some "1234 Market St, Philadelphia, Pennsylvania, 19107"
                     location := some ("-75.16047189802985", "39.951918251135154") }] }

/-- A tagger answering the Philadelphia city/state/zip triple, as
`usaddress` does on the fixture address. -/
def ttTagPhilly : String → TaggedAddress :=
  fun _ => { city := some "Philadelphia", state := some "Pennsylvania"
             zip := some "19107" }

/-- Witness for C5 at the repository's own test fixture (which the test
suite expects to be ACCEPTED with `is_philly_addr = True`): the source
instead raises a `TypeError`. -/
theorem tomtom_match_always_raises_type_error_witness :
    _do_tomtom_lookup ttRespMatch ttTagPhilly ["19107"]
        (some "1234 Market St") true true =
      Except.error "TypeError: bool object is not subscriptable" :=
  tomtom_match_always_raises_type_error ttRespMatch ttTagPhilly ["19107"]
    (some "1234 Market St") true true rfl rfl (by decide)

/-! ## `src/utils/rate_limiter.py` — the sliding-window rate limiter

`RateLimiter.wait` runs its eviction/check/append step atomically under
`self._lock`, and reads `time.monotonic()` inside the critical section,
so the admissions recorded by one instance form a single sequence with
nondecreasing timestamps, however many threads call `wait`
concurrently. The model is that admission sequence (most recent first);
timestamps live in an arbitrary linearly ordered additive group, of
which the real-valued monotonic clock is an instance. -/

/-- The queue `self._calls` as `wait` sees it at time `now`, after the
eviction loop (`while self._calls and self._calls[0] <= now - self.period:
popleft`): exactly the previous admissions with timestamp strictly
greater than `now - period` (earlier evictions only removed timestamps
that this eviction would also remove, since `now` is monotone). -/
def recentCount {α : Type} [LinearOrderedAddCommGroup α]
    (calls : List α) (period now : α) : Nat :=
  (calls.filter fun c => decide (now - period < c)).length

/-- The admission sequences `RateLimiter.wait` can produce, most recent
admission first: a new admission at time `now` (the `time.monotonic()`
read in the critical section, hence at least every earlier timestamp)
happens exactly when, after eviction, strictly fewer than `maxCalls`
admissions remain in the trailing window — the
`if len(self._calls) < self.max_calls: append; return` branch. -/
inductive ValidTrace {α : Type} [LinearOrderedAddCommGroup α]
    (maxCalls : Nat) (period : α) : List α → Prop where
  | nil : ValidTrace maxCalls period []
  | grant (now : α) (tr : List α) (hmono : ∀ c ∈ tr, c ≤ now)
      (hcap : recentCount tr period now < maxCalls)
      (htr : ValidTrace maxCalls period tr) :
      ValidTrace maxCalls period (now :: tr)

/-- The number of admissions of a trace falling in the sliding window
`(t - period, t]`. -/
def windowCount {α : Type} [LinearOrderedAddCommGroup α]
    (calls : List α) (period t : α) : Nat :=
  (calls.filter fun c => decide (t - period < c) && decide (c ≤ t)).length

/-- Claim C7: every admission `RateLimiter.wait` records happens at a
time when fewer than `maxCalls` admissions lie in the trailing window
(that is the `ValidTrace` admission rule, read off the source), and in
consequence no sliding window of length `period` ever contains more
than `maxCalls` admissions — in particular a burst of concurrent
callers, whose lock-serialized admissions are just such a trace, can
never exceed `maxCalls` admissions inside one window. -/
theorem rate_limiter_sliding_window_bound {α : Type}
    [LinearOrderedAddCommGroup α] (maxCalls : Nat) (period : α)
    (tr : List α) (h : ValidTrace maxCalls period tr) (t : α) :
    windowCount tr period t ≤ maxCalls := by
  induction h with
  | nil => simp [windowCount]
  | grant now tr hmono hcap htr ih =>
    by_cases hnow : t - period < now ∧ now ≤ t
    · have hsub : windowCount tr period t ≤ recentCount tr period now := by
        apply List.Sublist.length_le
        apply List.monotone_filter_right
        intro a ha
        simp only [Bool.and_eq_true, decide_eq_true_eq] at ha
        have hle : now - period ≤ t - period := sub_le_sub_right hnow.2 period
        exact decide_eq_true (lt_of_le_of_lt hle ha.1)
      have hcond : (decide (t - period < now) && decide (now ≤ t)) = true := by
        simp [hnow.1, hnow.2]
      unfold windowCount
      rw [List.filter_cons, if_pos hcond]
      simp only [List.length_cons]
      calc (List.filter (fun c => decide (t - period < c) && decide (c ≤ t)) tr).length + 1
          ≤ recentCount tr period now + 1 := Nat.add_le_add_right hsub 1
        _ ≤ maxCalls := hcap
    · unfold windowCount
      rw [List.filter_cons]
      have : (decide (t - period < now) && decide (now ≤ t)) = false := by
        rcases not_and_or.mp hnow with hc | hc
        · simp [hc]
        · simp [hc]
      rw [this]
      exact ih

/-- Witness for C7 over integer clock readings: with `maxCalls = 1` and
`period = 2`, the trace that admits at time 0 and again at time 2 is
valid, and the window ending at time 2 holds at most one admission. -/
theorem rate_limiter_sliding_window_bound_witness :
    windowCount [(2 : ℤ), 0] 2 2 ≤ 1 :=
  rate_limiter_sliding_window_bound 1 2 [(2 : ℤ), 0]
    (ValidTrace.grant 2 [0] (by decide) (by decide)
      (ValidTrace.grant 0 [] (by decide) (by decide) ValidTrace.nil)) 2

/-! ## `src/geocoder.py` — the split/enrich/merge plumbing of `process_csv`

A row of the streamed frame is modelled by the fields the plumbing
reads: the injected `__geocode_idx__` row index, the `is_non_philly`
flag, and the two coordinate columns. The per-row stages — the passyunk
parse, the address-file left join against a key-unique reference table,
and the AIS/TomTom enrichment structs — only rewrite the non-index
columns of each row, so they are passed in as arbitrary index-preserving
functions. `.sort("__geocode_idx__")` is modelled by a comparison sort
on the index; which sorting algorithm polars uses is immaterial here
since the index column is unique. -/

structure Row where
  idx : Nat
  is_non_philly : Bool
  geocode_lat : Option String
  geocode_lon : Option String
deriving DecidableEq

/-- The sort key of `.sort("__geocode_idx__")`. -/
def rowLE (a b : Row) : Prop := a.idx ≤ b.idx

instance : DecidableRel rowLE := fun a b => Nat.decLe a.idx b.idx

instance : IsTotal Row rowLE := ⟨fun a b => Nat.le_total a.idx b.idx⟩

instance : IsTrans Row rowLE := ⟨fun _ _ _ hab hbc => Nat.le_trans hab hbc⟩

/-- `.sort("__geocode_idx__")` on a frame. -/
def sortByIdx (l : List Row) : List Row := List.insertionSort rowLE l

/-- `geocoder.py` lines 36-99, `split_non_philly_address`: tag every row
with the classifier (the `location_info` map, abstracted as the
index-preserving `flagF`), then return the pair
`(philly_lf, non_philly_lf)` = (rows with the flag false, rows with the
flag true). -/
def split_non_philly_address (flagF : Row → Row) (l : List Row) :
    List Row × List Row :=
  let flagged := l.map flagF
  (flagged.filter fun r => !r.is_non_philly,
    flagged.filter fun r => r.is_non_philly)

/-- `geocoder.py` lines 226-239, `split_geos`: `(has_geo, needs_geo)` =
(rows with both coordinates non-null, rows with either null). -/
def split_geos (l : List Row) : List Row × List Row :=
  (l.filter fun r => !r.geocode_lat.isNone && !r.geocode_lon.isNone,
    l.filter fun r => r.geocode_lat.isNone || r.geocode_lon.isNone)

/-- `geocoder.py` lines 416-601, `process_csv`, stream plumbing after the
row index is injected by `scan_csv`: parse every row with passyunk,
split off the non-Philadelphia rows, left-join the Philadelphia rows
against the address file, split on coordinates, enrich the missing rows
via AIS, re-merge and re-sort by row index, split on coordinates again,
re-merge the non-Philadelphia rows with the still-missing rows
(diagonal concat then sort), enrich via TomTom, and concatenate and
re-sort a final time (after which the source drops the
`__geocode_idx__` helper column row-wise). -/
def process_csv (parse flagF joinf aisF ttF : Row → Row)
    (input : List Row) : List Row :=
  let lf := input.map parse
  let phillySplit := split_non_philly_address flagF lf
  let joined_lf := phillySplit.1.map joinf
  let geoSplit1 := split_geos joined_lf
  let ais_enriched := geoSplit1.2.map aisF
  let ais_rejoined := sortByIdx (geoSplit1.1 ++ ais_enriched)
  let geoSplit2 := split_geos ais_rejoined
  let needs_geo := sortByIdx (phillySplit.2 ++ geoSplit2.2)
  let tomtom_enriched := needs_geo.map ttF
  sortByIdx (geoSplit2.1 ++ tomtom_enriched)

/-- The multiset of row indices of a frame: the row-identity bookkeeping
for the split/merge reasoning. -/
def idxMultiset (l : List Row) : Multiset Nat :=
  (l.map Row.idx : Multiset Nat)

/-- An index-preserving per-row map leaves the index multiset alone. -/
theorem idxMultiset_map (f : Row → Row) (hf : ∀ r, (f r).idx = r.idx)
    (l : List Row) : idxMultiset (l.map f) = idxMultiset l := by
  unfold idxMultiset
  rw [List.map_map]
  congr 1
  exact List.map_congr_left fun a _ => hf a

/-- A filter split whose second predicate is the pointwise negation of
the first partitions its input: the two index multisets add back up. -/
theorem idxMultiset_partition (l : List Row) (p q : Row → Bool)
    (hq : ∀ r, q r = !p r) :
    idxMultiset (l.filter p) + idxMultiset (l.filter q) = idxMultiset l := by
  unfold idxMultiset
  rw [List.filter_congr (fun a _ => hq a)]
  have h2 := (List.filter_append_perm p l).map Row.idx
  rw [List.map_append] at h2
  have h3 : ((List.map Row.idx (List.filter p l) ++
      List.map Row.idx (List.filter (fun a => !p a) l) : List Nat) :
        Multiset Nat) =
      ((List.map Row.idx l : List Nat) : Multiset Nat) :=
    Multiset.coe_eq_coe.mpr h2
  simpa using h3

/-- Sorting by row index leaves the index multiset alone. -/
theorem idxMultiset_sort (l : List Row) :
    idxMultiset (sortByIdx l) = idxMultiset l :=
  Multiset.coe_eq_coe.mpr ((List.perm_insertionSort rowLE l).map Row.idx)

/-- Concatenation adds index multisets. -/
theorem idxMultiset_append (l₁ l₂ : List Row) :
    idxMultiset (l₁ ++ l₂) = idxMultiset l₁ + idxMultiset l₂ := by
  unfold idxMultiset
  rw [List.map_append, Multiset.coe_add]

/-- The `needs_geo` predicate of `split_geos` is the pointwise negation
of the `has_geo` predicate. -/
theorem split_geos_pred_neg (r : Row) :
    (r.geocode_lat.isNone || r.geocode_lon.isNone) =
      !(!r.geocode_lat.isNone && !r.geocode_lon.isNone) := by
  cases r.geocode_lat <;> cases r.geocode_lon <;> rfl

/-- The whole pipeline preserves the multiset of row indices. -/
theorem process_csv_idxMultiset (parse flagF joinf aisF ttF : Row → Row)
    (input : List Row)
    (hparse : ∀ r, (parse r).idx = r.idx)
    (hflag : ∀ r, (flagF r).idx = r.idx)
    (hjoin : ∀ r, (joinf r).idx = r.idx)
    (hais : ∀ r, (aisF r).idx = r.idx)
    (htt : ∀ r, (ttF r).idx = r.idx) :
    idxMultiset (process_csv parse flagF joinf aisF ttF input) =
      idxMultiset input := by
  unfold process_csv split_non_philly_address split_geos
  simp only []
  rw [idxMultiset_sort, idxMultiset_append, idxMultiset_map ttF htt,
    idxMultiset_sort, idxMultiset_append]
  rw [add_left_comm]
  rw [idxMultiset_partition _ _ _ split_geos_pred_neg, idxMultiset_sort,
    idxMultiset_append, idxMultiset_map aisF hais]
  rw [idxMultiset_partition _ _ _ split_geos_pred_neg,
    idxMultiset_map joinf hjoin]
  rw [add_comm]
  rw [idxMultiset_partition _ _ _
      (fun r => (Bool.not_not r.is_non_philly).symm),
    idxMultiset_map flagF hflag, idxMultiset_map parse hparse]

/-- The final row-wise `.drop` of the helper columns (`__geocode_idx__`,
`joined_address`, `is_non_philly`, `is_undefined`): a per-row projection
onto the remaining (coordinate) columns, which disturbs neither row
count nor row order. -/
def drop_helper_columns (l : List Row) : List (Option String × Option String) :=
  l.map fun r => (r.geocode_lat, r.geocode_lon)

/-- Claim C9: with the injected row index unique and increasing (as
`scan_csv` produces it: 0, 1, 2, ...) and every per-row stage preserving
it, each split partitions its input and each merge re-sorts it, so the
pipeline output carries exactly the input's row indices in the input's
order — same row count, original order — and removing the injected
row-index column is a per-row projection that keeps that count. -/
theorem process_csv_row_count_and_order
    (parse flagF joinf aisF ttF : Row → Row) (input : List Row)
    (hparse : ∀ r, (parse r).idx = r.idx)
    (hflag : ∀ r, (flagF r).idx = r.idx)
    (hjoin : ∀ r, (joinf r).idx = r.idx)
    (hais : ∀ r, (aisF r).idx = r.idx)
    (htt : ∀ r, (ttF r).idx = r.idx)
    (huniq : (input.map Row.idx).Pairwise (· < ·)) :
    (process_csv parse flagF joinf aisF ttF input).map Row.idx =
      input.map Row.idx ∧
    (process_csv parse flagF joinf aisF ttF input).length = input.length ∧
    (drop_helper_columns (process_csv parse flagF joinf aisF ttF
      input)).length = input.length := by
  have hms := process_csv_idxMultiset parse flagF joinf aisF ttF input
    hparse hflag hjoin hais htt
  have hperm : ((process_csv parse flagF joinf aisF ttF input).map
      Row.idx).Perm (input.map Row.idx) := Multiset.coe_eq_coe.mp hms
  have hsorted : List.Sorted rowLE
      (process_csv parse flagF joinf aisF ttF input) := by
    unfold process_csv sortByIdx
    exact List.sorted_insertionSort rowLE _
  have hsorted_map : List.Sorted (· ≤ ·)
      ((process_csv parse flagF joinf aisF ttF input).map Row.idx) :=
    List.pairwise_map.mpr hsorted
  have hsorted_in : List.Sorted (· ≤ ·) (input.map Row.idx) :=
    huniq.imp le_of_lt
  have heq := List.eq_of_perm_of_sorted hperm hsorted_map hsorted_in
  refine ⟨heq, ?_, ?_⟩
  · have := congrArg List.length heq
    rwa [List.length_map, List.length_map] at this
  · have := congrArg List.length heq
    rw [List.length_map, List.length_map] at this
    unfold drop_helper_columns
    rw [List.length_map]
    exact this

/-- A two-row input frame: row 0 Philadelphia without coordinates,
row 1 non-Philadelphia with coordinates. -/
def c9Input : List Row :=
  [{ idx := 0, is_non_philly := false, geocode_lat := none
     geocode_lon := none },
   { idx := 1, is_non_philly := true, geocode_lat := some "39.95"
     geocode_lon := some "-75.16" }]

/-- Witness for C9 with identity per-row stages on the two-row frame. -/
theorem process_csv_row_count_and_order_witness :
    (process_csv id id id id id c9Input).map Row.idx = c9Input.map Row.idx ∧
    (process_csv id id id id id c9Input).length = c9Input.length ∧
    (drop_helper_columns (process_csv id id id id id c9Input)).length =
      c9Input.length :=
  process_csv_row_count_and_order id id id id id c9Input
    (fun _ => rfl) (fun _ => rfl) (fun _ => rfl) (fun _ => rfl)
    (fun _ => rfl) (by decide)
